import Mathlib

/-!
Verification development for the HubSpot contact updater (src/hubspot.py).

The program is a thin HTTP client: a class HubSpotContactUpdater holding a
bearer token, base URL and headers, with three methods
(update_lead_score, get_contact, batch_update_lead_scores), plus a
cli_interface entry point and an example main. We embed it shallowly:

- JSON values are the inductive Json; Python dict results are association
  lists of String to PyVal, preserving key insertion order.
- The HTTP transport (the requests library) is external; a single request
  outcome is the inductive HttpOutcome: either a raised
  requests.exceptions.RequestException with a message, or a completed
  response carrying status code, raw text, and the parse of the body
  (Option Json, none when the body is not valid JSON, in which case
  Response.json raises a JSONDecodeError, a RequestException subclass).
- Python exceptions are modelled with Except PyExn. The try/except
  RequestException block of the source is pyTry, which catches exactly
  the requestException constructor; AttributeError and KeyError
  propagate, as in Python.
- Python floats appear in the program only through str(score_value); we
  model a score as a decimal number (integer mantissa over a power of
  ten) and pyFloatStr renders it the way repr of a Python float renders
  values whose shortest decimal form is their literal (85.5 to "85.5").
- datetime.now().isoformat() is threaded as an explicit string argument.
- Console output is not modelled (no claim concerns stdout); control
  flow, raised exceptions and return values of main and cli_interface
  are modelled exactly.
-/

/-- A JSON value, as produced by Response.json in Python. -/
inductive Json where
  | null : Json
  | bool : Bool → Json
  | num : Int → Json
  | str : String → Json
  | arr : List Json → Json
  | obj : List (String × Json) → Json

/-- A Python value stored in one of the result dicts built by the source. -/
inductive PyVal where
  | none : PyVal
  | bool : Bool → PyVal
  | int : Nat → PyVal
  | str : String → PyVal
  | json : Json → PyVal

/-- A Python dict with string keys, in insertion order. -/
abbrev PyDict := List (String × PyVal)

/-- Ordered association-list lookup, as Python dict lookup by key. -/
def lookupStr {α : Type} : List (String × α) → String → Option α
  | [], _ => Option.none
  | (k, v) :: rest, key => if k == key then Option.some v else lookupStr rest key

/-- A Python float that the program stringifies: mantissa over 10 to the
scale. Only the string form matters to the program. -/
structure PyFloat where
  mantissa : Int
  scale : Nat
deriving DecidableEq

/-- Python str of a float whose shortest repr is its decimal literal:
digits with the decimal point inserted scale places from the right, a
trailing .0 when the scale is zero, and a leading minus when negative. -/
def pyFloatStr (x : PyFloat) : String :=
  let digits := Nat.repr x.mantissa.natAbs
  let padded :=
    if digits.length ≤ x.scale then
      String.mk (List.replicate (x.scale + 1 - digits.length) '0') ++ digits
    else digits
  let core :=
    if x.scale = 0 then padded ++ ".0"
    else padded.take (padded.length - x.scale) ++ "." ++ padded.drop (padded.length - x.scale)
  if x.mantissa < 0 then "-" ++ core else core

/-- The Python exceptions the source can raise or catch:
requestException carries str of the exception; attributeError carries the
type name of the object that has no attribute get; keyError carries the
missing key. -/
inductive PyExn where
  | requestException : String → PyExn
  | attributeError : String → PyExn
  | keyError : String → PyExn

/-- Outcome of one HTTP request made through the requests library: either
the library raises a RequestException (message given), or a response
comes back with a status code, raw body text, and the JSON parse of the
body (none when the text is not valid JSON). -/
inductive HttpOutcome where
  | exn : String → HttpOutcome
  | resp : Nat → String → Option Json → HttpOutcome

/-- Python type name of a JSON value, used in AttributeError messages. -/
def jsonTypeName : Json → String
  | Json.null => "NoneType"
  | Json.bool _ => "bool"
  | Json.num _ => "int"
  | Json.str _ => "str"
  | Json.arr _ => "list"
  | Json.obj _ => "dict"

/-- Python type name of a stored value. -/
def pyValTypeName : PyVal → String
  | PyVal.none => "NoneType"
  | PyVal.bool _ => "bool"
  | PyVal.int _ => "int"
  | PyVal.str _ => "str"
  | PyVal.json j => jsonTypeName j

/-- result.get(key) on a parsed JSON value: on a dict, the value or
Python None; on anything else, AttributeError (no attribute get). -/
def pyGet (j : Json) (k : String) : Except PyExn PyVal :=
  match j with
  | Json.obj kvs =>
      Except.ok (match lookupStr kvs k with
        | Option.some v => PyVal.json v
        | Option.none => PyVal.none)
  | _ => Except.error (PyExn.attributeError (jsonTypeName j))

/-- result.get(key, default) on a parsed JSON value, default a JSON value. -/
def pyGetD (j : Json) (k : String) (d : Json) : Except PyExn Json :=
  match j with
  | Json.obj kvs => Except.ok ((lookupStr kvs k).getD d)
  | _ => Except.error (PyExn.attributeError (jsonTypeName j))

/-- d[key] on a result dict: the value, or KeyError. -/
def pyIndex (d : PyDict) (k : String) : Except PyExn PyVal :=
  match lookupStr d k with
  | Option.some v => Except.ok v
  | Option.none => Except.error (PyExn.keyError k)

/-- value.get(key, default) when the receiver is a stored Python value:
only a parsed JSON dict has the attribute. -/
def pyValGetD (v : PyVal) (k : String) (d : Json) : Except PyExn Json :=
  match v with
  | PyVal.json j => pyGetD j k d
  | _ => Except.error (PyExn.attributeError (pyValTypeName v))

/-- Python truthiness of a JSON value. -/
def jsonTruthy : Json → Bool
  | Json.null => false
  | Json.bool b => b
  | Json.num n => n != 0
  | Json.str s => !s.isEmpty
  | Json.arr xs => !xs.isEmpty
  | Json.obj kvs => !kvs.isEmpty

/-- Python truthiness of a stored value. -/
def pyValTruthy : PyVal → Bool
  | PyVal.none => false
  | PyVal.bool b => b
  | PyVal.int n => n != 0
  | PyVal.str s => !s.isEmpty
  | PyVal.json j => jsonTruthy j

/-- Python truthiness of an optional string (None and the empty string
are falsy), used for token checks in main and cli_interface. -/
def pyTruthy : Option String → Bool
  | Option.none => false
  | Option.some s => !s.isEmpty

/-- String interpolation of an optional string, as an f-string renders
it: None becomes the text None. -/
def pyFStrOpt : Option String → String
  | Option.none => "None"
  | Option.some s => s

/-- Response.json(): the parsed body, or a JSONDecodeError — a
RequestException subclass in the requests library — when the body text
is not valid JSON. -/
def respJson (bj : Option Json) : Except PyExn Json :=
  match bj with
  | Option.some j => Except.ok j
  | Option.none => Except.error (PyExn.requestException "Expecting value: line 1 column 1 (char 0)")

/-- try/except requests.exceptions.RequestException as e: the handler
receives str(e); other exceptions propagate. -/
def pyTry (body : Except PyExn PyDict) (handler : String → PyDict) : Except PyExn PyDict :=
  match body with
  | Except.error (PyExn.requestException m) => Except.ok (handler m)
  | x => x

/-- The client object: access token (None allowed, as in Python), fixed
base URL, and the derived header dict. -/
structure HubSpotContactUpdater where
  access_token : Option String
  base_url : String
  headers : List (String × String)

/-- HubSpotContactUpdater.__init__: stores the token, the fixed base
URL, and headers derived from the token by f-string interpolation. It
performs no validation and cannot fail. -/
def HubSpotContactUpdater.init (access_token : Option String) : HubSpotContactUpdater :=
  ⟨access_token, "https://api.hubapi.com",
    [("Authorization", "Bearer " ++ pyFStrOpt access_token),
     ("Content-Type", "application/json")]⟩

/-- The PATCH request handed to requests.patch: URL, headers, JSON body. -/
structure PatchRequest where
  url : String
  headers : List (String × String)
  body : Json

/-- The GET request handed to requests.get: URL, headers, query params. -/
structure GetRequest where
  url : String
  headers : List (String × String)
  params : List (String × String)

/-- update_lead_score(contact_id, score_value): builds the endpoint and
payload, PATCHes, and shapes the outcome into a result dict. Returns the
object state after the call (the method assigns no attribute, so it is
the receiver), the request sent, and the Python return value or the
exception that escapes. -/
def HubSpotContactUpdater.update_lead_score (self : HubSpotContactUpdater)
    (contact_id : String) (score_value : PyFloat) (now : String) (t : HttpOutcome) :
    HubSpotContactUpdater × PatchRequest × Except PyExn PyDict :=
  let endpoint := self.base_url ++ "/crm/v3/objects/contacts/" ++ contact_id
  let data := Json.obj [("properties",
    Json.obj [("custom_lead_score_marshall", Json.str (pyFloatStr score_value))])]
  let req : PatchRequest := ⟨endpoint, self.headers, data⟩
  let body : Except PyExn PyDict :=
    match t with
    | HttpOutcome.exn m => Except.error (PyExn.requestException m)
    | HttpOutcome.resp status text bj =>
      if status = 200 then do
        let result ← respJson bj
        let cid ← pyGet result "id"
        let props ← pyGetD result "properties" (Json.obj [])
        Except.ok [("success", PyVal.bool true),
          ("message", PyVal.str ("Successfully updated contact " ++ contact_id)),
          ("contact_id", cid),
          ("updated_properties", PyVal.json props),
          ("timestamp", PyVal.str now)]
      else
        Except.ok [("success", PyVal.bool false),
          ("message", PyVal.str "Failed to update contact"),
          ("status_code", PyVal.int status),
          ("error", PyVal.str text),
          ("timestamp", PyVal.str now)]
  (self, req, pyTry body (fun m =>
    [("success", PyVal.bool false),
     ("message", PyVal.str ("Request failed: " ++ m)),
     ("timestamp", PyVal.str now)]))

/-- get_contact(contact_id, properties): builds the endpoint and query
params (comma-joined property names only when the list is truthy), GETs,
and shapes the outcome. Same return convention as update_lead_score. -/
def HubSpotContactUpdater.get_contact (self : HubSpotContactUpdater)
    (contact_id : String) (properties : Option (List String)) (t : HttpOutcome) :
    HubSpotContactUpdater × GetRequest × Except PyExn PyDict :=
  let endpoint := self.base_url ++ "/crm/v3/objects/contacts/" ++ contact_id
  let params : List (String × String) :=
    match properties with
    | Option.some ps => if ps.isEmpty then [] else [("properties", String.intercalate "," ps)]
    | Option.none => []
  let req : GetRequest := ⟨endpoint, self.headers, params⟩
  let body : Except PyExn PyDict :=
    match t with
    | HttpOutcome.exn m => Except.error (PyExn.requestException m)
    | HttpOutcome.resp status text bj =>
      if status = 200 then do
        let j ← respJson bj
        Except.ok [("success", PyVal.bool true), ("data", PyVal.json j)]
      else
        Except.ok [("success", PyVal.bool false),
          ("error", PyVal.str text),
          ("status_code", PyVal.int status)]
  (self, req, pyTry body (fun m =>
    [("success", PyVal.bool false), ("error", PyVal.str m)]))

/-- One element of the list built by batch_update_lead_scores: the dict
with keys contact_id, score, result. -/
structure BatchEntry where
  contact_id : String
  score : PyFloat
  result : PyDict

/-- The loop body of batch_update_lead_scores: one update per entry, in
iteration order; an exception escaping an update aborts the loop, as in
Python. -/
def batchGo (self : HubSpotContactUpdater) (now : String) (t : String → HttpOutcome) :
    List (String × PyFloat) → Except PyExn (List BatchEntry)
  | [] => Except.ok []
  | (cid, score) :: rest => do
    let r ← (self.update_lead_score cid score now (t cid)).2.2
    let tail ← batchGo self now t rest
    Except.ok (⟨cid, score, r⟩ :: tail)

/-- batch_update_lead_scores(contact_scores): sequentially updates each
contact in the mapping, collecting a result entry per contact. The dict
is a list of pairs in insertion order; the transport outcome of each
PATCH is a function of the contact id (keys are unique in a dict). -/
def HubSpotContactUpdater.batch_update_lead_scores (self : HubSpotContactUpdater)
    (contact_scores : List (String × PyFloat)) (now : String) (t : String → HttpOutcome) :
    HubSpotContactUpdater × Except PyExn (List BatchEntry) :=
  (self, batchGo self now t contact_scores)

/-- The error raised, per the specification, when no credential is
available at construction time. -/
inductive ConfigurationError where
  | mk : ConfigurationError

/-- Modelled from the spec: construction accepts a bearer token directly
or resolved from a named environment variable as a fallback, and fails
with a ConfigurationError if no token is available from either source.
The source constructor has no such check and no environment fallback;
this definition follows the words of the spec, for comparison with
HubSpotContactUpdater.init. -/
def initSpec (direct envToken : Option String) :
    Except ConfigurationError HubSpotContactUpdater :=
  match direct with
  | Option.some s => Except.ok (HubSpotContactUpdater.init (Option.some s))
  | Option.none =>
    match envToken with
    | Option.some s => Except.ok (HubSpotContactUpdater.init (Option.some s))
    | Option.none => Except.error ConfigurationError.mk

/-- cli_interface: token is the --token flag value, defaulted to the
environment variable (None when neither is set). Returns 1 without any
request when the token is falsy; otherwise constructs the client, runs
one update, and returns 0 when the result dict has a truthy success
value, else 1. Printing is elided. -/
def cli_interface (token : Option String) (contact_id : String) (score : PyFloat)
    (now : String) (t : HttpOutcome) : Except PyExn Nat :=
  if pyTruthy token = false then Except.ok 1
  else do
    let client := HubSpotContactUpdater.init token
    let result ← (client.update_lead_score contact_id score now t).2.2
    let s ← pyIndex result "success"
    if pyValTruthy s then Except.ok 0 else Except.ok 1

/-- The loop at the end of main: for each batch entry it reads
result.result success to pick a status glyph; only the dict lookups are
effectful in the model. -/
def mainBatchLoop : List BatchEntry → Except PyExn Unit
  | [] => Except.ok ()
  | e :: rest => do
    let _ ← pyIndex e.result "success"
    mainBatchLoop rest

/-- main(): reads the token from the environment; on a falsy token
prints an error and returns. Otherwise runs example 1 (one update of
contact 12345 with score 85.5), example 2 (get_contact on 12345 with
four properties, and on success reads data properties and four property
values with defaults), and example 3 (a batch over three contacts),
then returns None. Each example receives its own transport outcome;
printing is elided, raised exceptions propagate. -/
def py_main (envToken : Option String) (tUpd tGet : HttpOutcome)
    (tBatch : String → HttpOutcome) (now : String) : Except PyExn Unit :=
  if pyTruthy envToken = false then Except.ok ()
  else do
    let client := HubSpotContactUpdater.init envToken
    let result ← (client.update_lead_score "12345" ⟨855, 1⟩ now tUpd).2.2
    let _ ← pyIndex result "success"
    let contact_info ← (client.get_contact "12345"
      (Option.some ["custom_lead_score_marshall", "email", "firstname", "lastname"]) tGet).2.2
    let s ← pyIndex contact_info "success"
    let _ ← (if pyValTruthy s then do
        let dataV ← pyIndex contact_info "data"
        let properties ← pyValGetD dataV "properties" (Json.obj [])
        let _ ← pyGetD properties "custom_lead_score_marshall" (Json.str "Not set")
        let _ ← pyGetD properties "email" (Json.str "Not set")
        let _ ← pyGetD properties "firstname" (Json.str "")
        let _ ← pyGetD properties "lastname" (Json.str "")
        Except.ok ()
      else Except.ok ())
    let batch_results ← (client.batch_update_lead_scores
      [("12345", ⟨855, 1⟩), ("12346", ⟨920, 1⟩), ("12347", ⟨7325, 2⟩)] now tBatch).2
    mainBatchLoop batch_results

/-- The exit code of running the script: the main guard calls main()
(the cli_interface call is commented out in the source), so the process
exits 0 when main returns and 1 only when an exception escapes. -/
def script_exit_code (envToken : Option String) (tUpd tGet : HttpOutcome)
    (tBatch : String → HttpOutcome) (now : String) : Nat :=
  match py_main envToken tUpd tGet tBatch now with
  | Except.ok _ => 0
  | Except.error _ => 1

/-- Retrieve the payload of an Except, with a default for the error
case; used to state the batch theorem under the hypothesis that every
per-entry update returned normally. -/
def exceptD {ε α : Type} : Except ε α → α → α
  | Except.ok a, _ => a
  | Except.error _, d => d

/-- A concrete client used by witnesses. -/
def sampleClient : HubSpotContactUpdater := HubSpotContactUpdater.init (Option.some "token")

/-- The batch mapping of the spec example: A, B, C in insertion order. -/
def sampleScores : List (String × PyFloat) := [("A", ⟨10, 1⟩), ("B", ⟨20, 1⟩), ("C", ⟨30, 1⟩)]

/-- A transport where contact B fails with HTTP 500 and the others
succeed with an object body echoing the id. -/
def sampleBatchTransport : String → HttpOutcome := fun cid =>
  if cid == "B" then HttpOutcome.resp 500 "server error" Option.none
  else HttpOutcome.resp 200 "ok"
    (Option.some (Json.obj [("id", Json.str cid), ("properties", Json.obj [])]))

theorem update_lead_score_resp_non200_eq (self : HubSpotContactUpdater)
    (contact_id : String) (score_value : PyFloat) (now txt : String)
    (bj : Option Json) (status : Nat) (h : status ≠ 200) :
    (self.update_lead_score contact_id score_value now
        (HttpOutcome.resp status txt bj)).2.2 =
      Except.ok [("success", PyVal.bool false),
        ("message", PyVal.str "Failed to update contact"),
        ("status_code", PyVal.int status),
        ("error", PyVal.str txt),
        ("timestamp", PyVal.str now)] := by
  simp [HubSpotContactUpdater.update_lead_score, pyTry, h]

theorem get_contact_resp_non200_eq (self : HubSpotContactUpdater)
    (contact_id : String) (ps : Option (List String)) (txt : String)
    (bj : Option Json) (status : Nat) (h : status ≠ 200) :
    (self.get_contact contact_id ps (HttpOutcome.resp status txt bj)).2.2 =
      Except.ok [("success", PyVal.bool false),
        ("error", PyVal.str txt),
        ("status_code", PyVal.int status)] := by
  simp [HubSpotContactUpdater.get_contact, pyTry, h]

/-- Claim C1: on HTTP 200 with a JSON object body, update_lead_score
returns success true, a message that includes the identifier, the
identifier echoed from the id field of the body (Python None when
absent), the properties of the body (empty object when absent), and a
timestamp field. -/
theorem update_success_result_shape (self : HubSpotContactUpdater)
    (contact_id : String) (score_value : PyFloat) (now txt : String)
    (kvs : List (String × Json)) :
    (self.update_lead_score contact_id score_value now
        (HttpOutcome.resp 200 txt (Option.some (Json.obj kvs)))).2.2 =
      Except.ok [("success", PyVal.bool true),
        ("message", PyVal.str ("Successfully updated contact " ++ contact_id)),
        ("contact_id", (match lookupStr kvs "id" with
          | Option.some v => PyVal.json v
          | Option.none => PyVal.none)),
        ("updated_properties", PyVal.json ((lookupStr kvs "properties").getD (Json.obj []))),
        ("timestamp", PyVal.str now)] ∧
    (∃ a, "Successfully updated contact " ++ contact_id = a ++ contact_id) :=
  ⟨rfl, ⟨"Successfully updated contact ", rfl⟩⟩

/-- Claim C5: on any non-200 status, update_lead_score returns success
false, the fixed message Failed to update contact (the same for every
status and free of digits, so the status never appears in it), the
status code and raw body text verbatim in their own fields, and a
timestamp field. -/
theorem update_non200_result_shape (self : HubSpotContactUpdater)
    (contact_id : String) (score_value : PyFloat) (now txt : String)
    (bj : Option Json) (status : Nat) (h : status ≠ 200) :
    (self.update_lead_score contact_id score_value now
        (HttpOutcome.resp status txt bj)).2.2 =
      Except.ok [("success", PyVal.bool false),
        ("message", PyVal.str "Failed to update contact"),
        ("status_code", PyVal.int status),
        ("error", PyVal.str txt),
        ("timestamp", PyVal.str now)] ∧
    (∀ ch ∈ "Failed to update contact".toList, ch.isDigit = false) :=
  ⟨update_lead_score_resp_non200_eq self contact_id score_value now txt bj status h,
   by decide⟩

/-- Witness for C5 at status 404. -/
theorem update_non200_result_shape_witness :
    (404 ≠ 200) ∧
    ((sampleClient.update_lead_score "42" ⟨855, 1⟩ "ts"
        (HttpOutcome.resp 404 "not found" Option.none)).2.2 =
      Except.ok [("success", PyVal.bool false),
        ("message", PyVal.str "Failed to update contact"),
        ("status_code", PyVal.int 404),
        ("error", PyVal.str "not found"),
        ("timestamp", PyVal.str "ts")] ∧
    (∀ ch ∈ "Failed to update contact".toList, ch.isDigit = false)) :=
  ⟨by decide,
   update_non200_result_shape sampleClient "42" ⟨855, 1⟩ "ts" "not found" Option.none 404
     (by decide)⟩

/-- Claim C6: on a transport-level failure, update_lead_score returns
success false, a message that includes the stringified exception, no
status code key, and a timestamp field. -/
theorem update_transport_failure_shape (self : HubSpotContactUpdater)
    (contact_id : String) (score_value : PyFloat) (now m : String) :
    (self.update_lead_score contact_id score_value now (HttpOutcome.exn m)).2.2 =
      Except.ok [("success", PyVal.bool false),
        ("message", PyVal.str ("Request failed: " ++ m)),
        ("timestamp", PyVal.str now)] ∧
    lookupStr [("success", PyVal.bool false),
        ("message", PyVal.str ("Request failed: " ++ m)),
        ("timestamp", PyVal.str now)] "status_code" = Option.none ∧
    (∃ a, "Request failed: " ++ m = a ++ m) :=
  ⟨rfl, rfl, ⟨"Request failed: ", rfl⟩⟩

/-- Claim C7: get_contact sends the properties query parameter as the
comma-join of the supplied names exactly when the list is supplied and
non-empty, and no parameter otherwise; for the list a, b the value is
a,b. -/
theorem get_contact_properties_param (self : HubSpotContactUpdater)
    (contact_id : String) (t : HttpOutcome) :
    (self.get_contact contact_id Option.none t).2.1.params = [] ∧
    (self.get_contact contact_id (Option.some []) t).2.1.params = [] ∧
    (∀ p ps, (self.get_contact contact_id (Option.some (p :: ps)) t).2.1.params =
      [("properties", String.intercalate "," (p :: ps))]) ∧
    (self.get_contact contact_id (Option.some ["a", "b"]) t).2.1.params =
      [("properties", "a,b")] :=
  ⟨rfl, rfl, fun _ _ => rfl, rfl⟩

/-- Claim C8: the PATCH body is exactly the properties object with the
single custom field set to the string form of the value, and 85.5 is
rendered as the string 85.5. -/
theorem update_patch_body_shape (self : HubSpotContactUpdater)
    (contact_id : String) (score_value : PyFloat) (now : String) (t : HttpOutcome) :
    (self.update_lead_score contact_id score_value now t).2.1.body =
      Json.obj [("properties",
        Json.obj [("custom_lead_score_marshall", Json.str (pyFloatStr score_value))])] ∧
    pyFloatStr ⟨855, 1⟩ = "85.5" :=
  ⟨rfl, rfl⟩

/-- Claim C10: no operation mutates the client configuration, and a
repeat call with equal arguments issues the identical request. -/
theorem client_config_frame (self : HubSpotContactUpdater) (contact_id : String)
    (score_value : PyFloat) (now : String) (t t2 : HttpOutcome)
    (ps : Option (List String)) (scores : List (String × PyFloat))
    (tb : String → HttpOutcome) :
    (self.update_lead_score contact_id score_value now t).1 = self ∧
    (self.get_contact contact_id ps t).1 = self ∧
    (self.batch_update_lead_scores scores now tb).1 = self ∧
    ((self.update_lead_score contact_id score_value now t).1.update_lead_score
        contact_id score_value now t2).2.1 =
      (self.update_lead_score contact_id score_value now t2).2.1 ∧
    ((self.get_contact contact_id ps t).1.get_contact contact_id ps t2).2.1 =
      (self.get_contact contact_id ps t2).2.1 :=
  ⟨rfl, rfl, rfl, rfl, rfl⟩

/-- Counterexample to claim C3: the spec-modelled constructor rejects a
missing token, but the source constructor accepts it and builds a client
whose Authorization header interpolates None; construction never fails. -/
theorem construction_without_token_succeeds :
    initSpec Option.none Option.none = Except.error ConfigurationError.mk ∧
    HubSpotContactUpdater.init Option.none =
      ⟨Option.none, "https://api.hubapi.com",
        [("Authorization", "Bearer None"), ("Content-Type", "application/json")]⟩ :=
  ⟨rfl, rfl⟩

/-- Claim C3 as amended: construction is total and unchecked for every
token, and the missing-token failure lives in the callers; cli_interface
returns 1 before any request when the token is falsy. -/
theorem construction_total_and_cli_guard (tok : Option String) (contact_id : String)
    (score : PyFloat) (now : String) (t : HttpOutcome) :
    HubSpotContactUpdater.init tok =
      ⟨tok, "https://api.hubapi.com",
        [("Authorization", "Bearer " ++ pyFStrOpt tok),
         ("Content-Type", "application/json")]⟩ ∧
    (pyTruthy tok = false → cli_interface tok contact_id score now t = Except.ok 1) := by
  refine ⟨rfl, fun h => ?_⟩
  simp [cli_interface, h]

/-- Witness for the amended C3 at a missing token. -/
theorem construction_total_and_cli_guard_witness :
    HubSpotContactUpdater.init Option.none =
      ⟨Option.none, "https://api.hubapi.com",
        [("Authorization", "Bearer " ++ pyFStrOpt Option.none),
         ("Content-Type", "application/json")]⟩ ∧
    (pyTruthy Option.none = false →
      cli_interface Option.none "42" ⟨855, 1⟩ "ts" (HttpOutcome.exn "down") = Except.ok 1) :=
  construction_total_and_cli_guard Option.none "42" ⟨855, 1⟩ "ts" (HttpOutcome.exn "down")

/-- Counterexample to claim C4: an HTTP 200 response whose JSON body is
a list makes update_lead_score raise AttributeError (list has no
attribute get), which the except clause for RequestException does not
catch; no Result is returned. -/
theorem update_raises_on_nonobject_body :
    (sampleClient.update_lead_score "123" ⟨855, 1⟩ "ts"
      (HttpOutcome.resp 200 "[]" (Option.some (Json.arr [])))).2.2 =
      Except.error (PyExn.attributeError "list") := rfl

/-- Claim C4 as amended: get_contact returns a Result on every transport
outcome, and update_lead_score returns a Result on every outcome except
a 200 response whose JSON body is not an object: transport exception,
any non-200 status, a 200 body that fails to parse, and a 200 object
body all produce Results. -/
theorem operations_return_results_cases (self : HubSpotContactUpdater)
    (contact_id : String) (score_value : PyFloat) (ps : Option (List String))
    (now : String) :
    (∀ t, ∃ r, (self.get_contact contact_id ps t).2.2 = Except.ok r) ∧
    (∀ m, ∃ r, (self.update_lead_score contact_id score_value now
        (HttpOutcome.exn m)).2.2 = Except.ok r) ∧
    (∀ status txt bj, status ≠ 200 →
      ∃ r, (self.update_lead_score contact_id score_value now
        (HttpOutcome.resp status txt bj)).2.2 = Except.ok r) ∧
    (∀ txt, ∃ r, (self.update_lead_score contact_id score_value now
        (HttpOutcome.resp 200 txt Option.none)).2.2 = Except.ok r) ∧
    (∀ txt kvs, ∃ r, (self.update_lead_score contact_id score_value now
        (HttpOutcome.resp 200 txt (Option.some (Json.obj kvs)))).2.2 = Except.ok r) := by
  refine ⟨?_, ?_, ?_, ?_, ?_⟩
  · intro t
    cases t with
    | exn m => exact ⟨_, rfl⟩
    | resp status txt bj =>
      by_cases h : status = 200
      · subst h
        cases bj with
        | none => exact ⟨_, rfl⟩
        | some j => exact ⟨_, rfl⟩
      · exact ⟨_, get_contact_resp_non200_eq self contact_id ps txt bj status h⟩
  · intro m
    exact ⟨_, rfl⟩
  · intro status txt bj h
    exact ⟨_, update_lead_score_resp_non200_eq self contact_id score_value now txt bj status h⟩
  · intro txt
    exact ⟨_, rfl⟩
  · intro txt kvs
    exact ⟨_, rfl⟩

/-- Witness for the amended C4: each covered outcome produces a Result
at concrete inputs. -/
theorem operations_return_results_cases_witness :
    (∃ r, (sampleClient.get_contact "42" Option.none (HttpOutcome.exn "down")).2.2 =
      Except.ok r) ∧
    (404 ≠ 200) ∧
    (∃ r, (sampleClient.update_lead_score "42" ⟨855, 1⟩ "ts"
        (HttpOutcome.resp 404 "nf" Option.none)).2.2 = Except.ok r) :=
  ⟨(operations_return_results_cases sampleClient "42" ⟨855, 1⟩ Option.none "ts").1
      (HttpOutcome.exn "down"),
   by decide,
   (operations_return_results_cases sampleClient "42" ⟨855, 1⟩ Option.none "ts").2.2.1
      404 "nf" Option.none (by decide)⟩

/-- Counterexample to claim C9: the main guard of the script runs the
example main, not cli_interface (that call is commented out), so the
process exits 0 even when the token is missing and even when every
request fails with HTTP 500. -/
theorem script_exit_zero_on_failure :
    script_exit_code Option.none (HttpOutcome.exn "down") (HttpOutcome.exn "down")
      (fun _ => HttpOutcome.exn "down") "ts" = 0 ∧
    script_exit_code (Option.some "tok") (HttpOutcome.resp 500 "oops" Option.none)
      (HttpOutcome.resp 500 "oops" Option.none)
      (fun _ => HttpOutcome.resp 500 "oops" Option.none) "ts" = 0 :=
  ⟨rfl, rfl⟩

/-- Claim C9 as amended: the return value of cli_interface is 1 when the
token is missing or empty, 0 when the update succeeds, and 1 on an API
failure or a transport failure; it only becomes the process exit code if
the commented-out exit call is enabled. -/
theorem cli_interface_exit_codes (contact_id : String) (score : PyFloat)
    (now m txt : String) (tok : String) (status : Nat)
    (kvs : List (String × Json)) (bj : Option Json) (t : HttpOutcome)
    (htok : tok.isEmpty = false) (hstatus : status ≠ 200) :
    cli_interface Option.none contact_id score now t = Except.ok 1 ∧
    cli_interface (Option.some "") contact_id score now t = Except.ok 1 ∧
    cli_interface (Option.some tok) contact_id score now
      (HttpOutcome.resp 200 txt (Option.some (Json.obj kvs))) = Except.ok 0 ∧
    cli_interface (Option.some tok) contact_id score now
      (HttpOutcome.resp status txt bj) = Except.ok 1 ∧
    cli_interface (Option.some tok) contact_id score now (HttpOutcome.exn m) =
      Except.ok 1 := by
  have htr : pyTruthy (Option.some tok) = true := by simp [pyTruthy, htok]
  refine ⟨rfl, rfl, ?_, ?_, ?_⟩
  · simp only [cli_interface, htr]
    rfl
  · simp only [cli_interface, htr,
      update_lead_score_resp_non200_eq _ _ _ _ _ _ _ hstatus]
    rfl
  · simp only [cli_interface, htr]
    rfl

/-- Witness for the amended C9 at concrete inputs. -/
theorem cli_interface_exit_codes_witness :
    ("tk".isEmpty = false) ∧ (404 ≠ 200) ∧
    (cli_interface Option.none "42" ⟨855, 1⟩ "ts" (HttpOutcome.exn "down") = Except.ok 1 ∧
     cli_interface (Option.some "") "42" ⟨855, 1⟩ "ts" (HttpOutcome.exn "down") = Except.ok 1 ∧
     cli_interface (Option.some "tk") "42" ⟨855, 1⟩ "ts"
       (HttpOutcome.resp 200 "body" (Option.some (Json.obj []))) = Except.ok 0 ∧
     cli_interface (Option.some "tk") "42" ⟨855, 1⟩ "ts"
       (HttpOutcome.resp 404 "nf" Option.none) = Except.ok 1 ∧
     cli_interface (Option.some "tk") "42" ⟨855, 1⟩ "ts" (HttpOutcome.exn "down") =
       Except.ok 1) :=
  ⟨by decide, by decide,
   cli_interface_exit_codes "42" ⟨855, 1⟩ "ts" "down" "nf" "tk" 404 [] Option.none
     (HttpOutcome.exn "down") (by decide) (by decide)⟩

/-- Claim C2 (amended with the proviso that every per-entry update
returns normally): batch_update_lead_scores produces one entry per
mapping pair, in iteration order, each entry depending only on its own
update; the list has the length of the mapping. -/
theorem batch_results_componentwise (self : HubSpotContactUpdater)
    (scores : List (String × PyFloat)) (now : String) (t : String → HttpOutcome)
    (h : ∀ p ∈ scores,
      ((self.update_lead_score p.1 p.2 now (t p.1)).2.2).isOk = true) :
    (self.batch_update_lead_scores scores now t).2 =
      Except.ok (scores.map fun p =>
        ⟨p.1, p.2, exceptD ((self.update_lead_score p.1 p.2 now (t p.1)).2.2) []⟩) ∧
    (scores.map fun p =>
        (⟨p.1, p.2, exceptD ((self.update_lead_score p.1 p.2 now (t p.1)).2.2) []⟩ :
          BatchEntry)).length = scores.length := by
  refine ⟨?_, by simp⟩
  show batchGo self now t scores = _
  induction scores with
  | nil => rfl
  | cons p rest ih =>
    obtain ⟨cid, score⟩ := p
    have hp := h (cid, score) (List.mem_cons_self _ _)
    have hrest : ∀ q ∈ rest,
        ((self.update_lead_score q.1 q.2 now (t q.1)).2.2).isOk = true :=
      fun q hq => h q (List.mem_cons_of_mem _ hq)
    obtain ⟨r, hr⟩ : ∃ r,
        (self.update_lead_score cid score now (t cid)).2.2 = Except.ok r := by
      revert hp
      cases (self.update_lead_score cid score now (t cid)).2.2 with
      | ok r => exact fun _ => ⟨r, rfl⟩
      | error e => intro hp; simp [Except.isOk, Except.toBool] at hp
    unfold batchGo
    simp only [hr, ih hrest, List.map_cons, exceptD]
    rfl

/-- Witness for C2 on the spec example: A, B, C where B fails with HTTP
500 and A, C succeed; three entries in order, with B the only failure. -/
theorem batch_results_componentwise_witness :
    (∀ p ∈ sampleScores,
      ((sampleClient.update_lead_score p.1 p.2 "ts" (sampleBatchTransport p.1)).2.2).isOk
        = true) ∧
    (sampleClient.batch_update_lead_scores sampleScores "ts" sampleBatchTransport).2 =
      Except.ok (sampleScores.map fun p =>
        ⟨p.1, p.2,
          exceptD ((sampleClient.update_lead_score p.1 p.2 "ts"
            (sampleBatchTransport p.1)).2.2) []⟩) :=
  ⟨by decide,
   (batch_results_componentwise sampleClient sampleScores "ts" sampleBatchTransport
      (by decide)).1⟩

/-- Counterexample to claim C2 as stated: with two entries where the
first gets a 200 response carrying a JSON list body, the AttributeError
raised inside the first update aborts the loop, so no sequence is
returned at all and the second entry is never represented, even though
its own transport would succeed. -/
theorem batch_aborts_on_nonobject_body :
    (sampleClient.batch_update_lead_scores [("A", ⟨10, 1⟩), ("B", ⟨20, 1⟩)] "ts"
      (fun cid =>
        if cid == "A" then HttpOutcome.resp 200 "[]" (Option.some (Json.arr []))
        else HttpOutcome.resp 200 "ok" (Option.some (Json.obj [])))).2 =
      Except.error (PyExn.attributeError "list") := rfl
